import Mathlib

/-!
# A shallow embedding of the botarmy-poc orchestration core

This file embeds, in Lean, the parts of the repository that the spec's
claims are about:

* `src/database.py` (`DatabaseManager`): the three SQLite tables
  (`messages`, `projects`, `actions`) and the operations on them;
* `src/llm_client.py` (`LLMClient.generate_response`): the retry loop
  around the OpenAI chat-completion call;
* `src/agents.py` (`BaseAgent.escalate_to_human`,
  `AnalystAgent.process_message`): the analyst stage and human escalation;
* `src/main.py` (`respond_to_action`, `get_project`, the chat-message
  insert): the API handlers touching the same tables;
* the agent-manager / pipeline code generated by
  `src/agents/code_generators/complete_backend_generator.py`
  (`AgentManager._process_with_agent`, `_should_retry_agent`) and
  `src/agents/fixed_developer_agent.py` (the pipeline stage error branch
  and `_handle_stage_error`).

Modelling conventions:

* SQLite rows become structures; a table is a `List` of rows in rowid
  (insertion) order.  `CURRENT_TIMESTAMP` is an abstract `Nat` tick
  supplied by the caller as `now`; `uuid.uuid4()` values are supplied by
  the caller as explicit id arguments.
* Python `float` confidence values in `[0, 1]` are represented in
  hundredths (`Nat`): the default threshold `0.7` is `70`, the default
  confidence `0.8` is `80`.  The code under test never does arithmetic
  on confidences, only stores and compares them, so this scaling is
  faithful.
* Raised Python exceptions are `Except.error` with the exception's
  message (or its class name where the message is irrelevant); fallible
  lookups return `Option`.
* The OpenAI API call, `json.loads` and `json.dumps` are external
  library calls, opaque to the repository code; they are passed in as
  oracles (`api`, `parse`, `dumps`).  Parsed JSON values are the small
  `PyVal` type below.
-/

namespace BotArmy

/-! ## Data model: the tables created by `DatabaseManager.init_database` -/

mutual

/-- Parsed JSON / Python values, as produced by the `json.loads` oracle and
consumed by `dict.get`.  Numbers are confidences in hundredths (see the
module docstring).  JSON arrays are not needed by any claim and a non-dict
value of any shape triggers the same `AttributeError` path, so they are
not represented separately. -/
inductive PyVal where
  | pnull : PyVal
  | pnum : Nat → PyVal
  | pstr : String → PyVal
  | pdict : PyFields → PyVal
  deriving Repr

/-- The entries of a JSON object / Python dict, in insertion order. -/
inductive PyFields where
  | nil : PyFields
  | cons : String → PyVal → PyFields → PyFields
  deriving Repr

end

mutual

/-- Boolean equality on `PyVal` (the automatic `DecidableEq` derivation does
not handle the mutual inductive). -/
def PyVal.beq : PyVal → PyVal → Bool
  | .pnull, .pnull => true
  | .pnum a, .pnum b => a == b
  | .pstr a, .pstr b => a == b
  | .pdict a, .pdict b => PyFields.beq a b
  | _, _ => false

/-- Boolean equality on dict entries. -/
def PyFields.beq : PyFields → PyFields → Bool
  | .nil, .nil => true
  | .cons k₁ v₁ t₁, .cons k₂ v₂ t₂ =>
      k₁ == k₂ && PyVal.beq v₁ v₂ && PyFields.beq t₁ t₂
  | _, _ => false

end

mutual

/-- `PyVal.beq` decides equality. -/
theorem PyVal.beq_iff : ∀ a b : PyVal, PyVal.beq a b = true ↔ a = b
  | .pnull, .pnull => by simp [PyVal.beq]
  | .pnull, .pnum _ | .pnull, .pstr _ | .pnull, .pdict _ => by simp [PyVal.beq]
  | .pnum _, .pnull | .pnum _, .pstr _ | .pnum _, .pdict _ => by simp [PyVal.beq]
  | .pstr _, .pnull | .pstr _, .pnum _ | .pstr _, .pdict _ => by simp [PyVal.beq]
  | .pdict _, .pnull | .pdict _, .pnum _ | .pdict _, .pstr _ => by simp [PyVal.beq]
  | .pnum a, .pnum b => by simp [PyVal.beq]
  | .pstr a, .pstr b => by simp [PyVal.beq]
  | .pdict a, .pdict b => by
      simp only [PyVal.beq, PyVal.pdict.injEq]
      exact PyFields.beqFields_iff a b

/-- `PyFields.beq` decides equality of dict entries. -/
theorem PyFields.beqFields_iff : ∀ a b : PyFields, PyFields.beq a b = true ↔ a = b
  | .nil, .nil => by simp [PyFields.beq]
  | .nil, .cons _ _ _ => by simp [PyFields.beq]
  | .cons _ _ _, .nil => by simp [PyFields.beq]
  | .cons k₁ v₁ t₁, .cons k₂ v₂ t₂ => by
      simp only [PyFields.beq, Bool.and_eq_true, beq_iff_eq,
        PyFields.cons.injEq]
      rw [PyVal.beq_iff v₁ v₂, PyFields.beqFields_iff t₁ t₂]
      exact and_assoc

end

instance : DecidableEq PyVal := fun a b => decidable_of_iff _ (PyVal.beq_iff a b)

instance : DecidableEq PyFields := fun a b =>
  decidable_of_iff _ (PyFields.beqFields_iff a b)

/-- Decidable equality of `Except` results (no such instance ships with the
library core). -/
instance {ε α : Type} [DecidableEq ε] [DecidableEq α] :
    DecidableEq (Except ε α) := fun a b =>
  match a, b with
  | .ok x, .ok y =>
    if h : x = y then isTrue (h ▸ rfl)
    else isFalse (fun hh => h (Except.noConfusion hh id))
  | .error x, .error y =>
    if h : x = y then isTrue (h ▸ rfl)
    else isFalse (fun hh => h (Except.noConfusion hh id))
  | .ok _, .error _ => isFalse (fun hh => Except.noConfusion hh)
  | .error _, .ok _ => isFalse (fun hh => Except.noConfusion hh)

/-- Is this value a Python dict?  Only dicts have a `.get` method. -/
def PyVal.isDict : PyVal → Bool
  | .pdict _ => true
  | _ => false

/-- Dict lookup: the value stored under `key`, if any. -/
def PyFields.get? : PyFields → String → Option PyVal
  | .nil, _ => none
  | .cons k v rest, key => if k == key then some v else rest.get? key

/-- `v.get(key, default)`.  On a dict this is a total lookup with default;
on any other value Python raises `AttributeError` (modelled as
`Except.error`), since only dicts have `.get`. -/
def PyVal.dictGet (v : PyVal) (key : String) (default : PyVal) :
    Except String PyVal :=
  match v with
  | .pdict entries =>
    match entries.get? key with
    | some x => .ok x
    | none => .ok default
  | _ => .error "AttributeError"

/-- A row of the `messages` table (`src/database.py:19-33`).
`content` holds the `json.dumps` of the payload; `confidence` is the REAL
column (SQLite is dynamically typed, so an arbitrary value passed for it is
stored as-is, hence `Option PyVal`); `attempt_number INTEGER DEFAULT 1`. -/
structure Message where
  id : String
  project_id : String
  from_agent : String
  to_agent : String
  message_type : String
  content : String
  status : String
  confidence : Option PyVal
  timestamp : Nat
  thread_id : Option String
  attempt_number : Nat
deriving Repr, DecidableEq

/-- A row of the `projects` table (`src/database.py:36-47`). -/
structure ProjectRow where
  id : String
  name : String
  requirements : String
  spec : Option String
  status : String
  version : Nat
  created_at : Nat
  updated_at : Nat
deriving Repr, DecidableEq

/-- A row of the `actions` table (`src/database.py:50-63`) — the
human-intervention records. -/
structure ActionRow where
  id : String
  project_id : String
  title : String
  description : String
  priority : String
  status : String
  options : Option String
  response : Option String
  created_at : Nat
  resolved_at : Option Nat
deriving Repr, DecidableEq

/-- The whole persistent store: each table as a list of rows in rowid
(insertion) order. -/
structure DB where
  messages : List Message
  projects : List ProjectRow
  actions : List ActionRow
deriving Repr, DecidableEq

/-- The freshly-initialized database. -/
def DB.empty : DB := ⟨[], [], []⟩

/-! ## `DatabaseManager` operations (`src/database.py`) -/

/-- `DatabaseManager.add_message` (`src/database.py:68-88`): INSERT a new
message row.  Columns not named in the INSERT take their schema defaults:
`status='pending'`, `timestamp=CURRENT_TIMESTAMP` (here `now`),
`thread_id=NULL`, `attempt_number=1`.  Returns the message id. -/
def add_message (db : DB) (message_id project_id from_agent to_agent
    message_type content : String) (confidence : Option PyVal) (now : Nat) :
    String × DB :=
  (message_id,
   { db with messages := db.messages ++
      [{ id := message_id
         project_id := project_id
         from_agent := from_agent
         to_agent := to_agent
         message_type := message_type
         content := content
         status := "pending"
         confidence := confidence
         timestamp := now
         thread_id := none
         attempt_number := 1 }] })

/-- The `ORDER BY timestamp ASC` relation of `get_pending_messages`. -/
def tsLe (a b : Message) : Prop := a.timestamp ≤ b.timestamp

instance : DecidableRel tsLe := fun a b => Nat.decLe a.timestamp b.timestamp

instance : IsTotal Message tsLe := ⟨fun a b => Nat.le_total a.timestamp b.timestamp⟩

instance : IsTrans Message tsLe := ⟨fun _ _ _ h h' => Nat.le_trans h h'⟩

/-- `DatabaseManager.get_pending_messages` (`src/database.py:90-121`) with an
`agent_id`:
`SELECT * FROM messages WHERE to_agent = ? AND status = 'pending' ORDER BY
timestamp ASC`.  The table scan visits rows in rowid (insertion) order and
the sort key is `timestamp` alone, so equal-timestamp rows are modelled as
coming back in insertion order (a stable sort of the scan); the SQL names
no secondary sort key. -/
def get_pending_messages (db : DB) (agent_id : String) : List Message :=
  List.insertionSort tsLe
    (db.messages.filter fun m => m.to_agent == agent_id && m.status == "pending")

/-- `DatabaseManager.update_message_status` (`src/database.py:123-129`):
`UPDATE messages SET status = ? WHERE id = ?`. -/
def update_message_status (db : DB) (message_id status : String) : DB :=
  { db with messages := db.messages.map fun m =>
      if m.id == message_id then { m with status := status } else m }

/-- `DatabaseManager.create_project` (`src/database.py:131-144`): INSERT a
new project row; unnamed columns take the schema defaults
(`status='active'`, `version=1`, timestamps `CURRENT_TIMESTAMP`). -/
def create_project (db : DB) (project_id name requirements : String)
    (now : Nat) : String × DB :=
  (project_id,
   { db with projects := db.projects ++
      [{ id := project_id
         name := name
         requirements := requirements
         spec := none
         status := "active"
         version := 1
         created_at := now
         updated_at := now }] })

/-- `DatabaseManager.get_project` (`src/database.py:146-165`):
`SELECT * FROM projects WHERE id = ?` + `fetchone()`.  The body runs only a
SELECT, so the store is returned unchanged; a missing id yields `none`
(Python `None`), not an exception. -/
def get_project (db : DB) (project_id : String) : Option ProjectRow × DB :=
  (db.projects.find? (fun p => p.id == project_id), db)

/-! ## API handlers over the same tables (`src/main.py`) -/

/-- A raised `fastapi.HTTPException`. -/
structure HTTPError where
  status_code : Nat
  detail : String
deriving Repr, DecidableEq

/-- The `GET /api/projects/{project_id}` handler (`src/main.py:155-161`):
looks the project up and raises `HTTPException(404, "Project not found")`
when the lookup returns `None` (a found row is a non-empty dict, hence
truthy). -/
def get_project_endpoint (db : DB) (project_id : String) :
    Except HTTPError ProjectRow × DB :=
  match get_project db project_id with
  | (some p, db') => (.ok p, db')
  | (none, db') => (.error ⟨404, "Project not found"⟩, db')

/-- The `POST /api/actions/respond` handler (`src/main.py:217-230`):
`UPDATE actions SET status = 'resolved', response = ?, resolved_at =
CURRENT_TIMESTAMP WHERE id = ?`, unconditionally, then returns
`{"status": "resolved"}`.  The current status of the row is never
consulted and nothing else is read or written. -/
def respond_to_action (db : DB) (action_id response : String) (now : Nat) :
    String × DB :=
  ("resolved",
   { db with actions := db.actions.map fun a =>
       if a.id == action_id then
         { a with status := "resolved"
                  response := some response
                  resolved_at := some now }
       else a })

/-- `BaseAgent.escalate_to_human` (`src/agents.py:50-65`).  The body's
first statement is `conn = sqlite3.connect(self.db.db_path)`, but
`agents.py` imports neither `sqlite3` nor `uuid`, so every call raises
`NameError: name 'sqlite3' is not defined` before reaching its INSERT —
the method can never write an action row, and the store is left
untouched. -/
def escalate_to_human (_db : DB) (_agent_id _project_id _issue
    _options_json : String) : Except String (String × DB) :=
  .error "NameError: name 'sqlite3' is not defined"

/-- The INSERT in `send_chat_message` (`src/main.py:429-445`): a message
row with explicit `status='sent'` and timestamp; `confidence`,
`thread_id` and `attempt_number` take the schema defaults. -/
def chat_message_insert (db : DB) (message_id project_id message_type
    target content_json : String) (now : Nat) : DB :=
  { db with messages := db.messages ++
     [{ id := message_id
        project_id := project_id
        from_agent := "human"
        to_agent := target
        message_type := message_type
        content := content_json
        status := "sent"
        confidence := none
        timestamp := now
        thread_id := none
        attempt_number := 1 }] }

/-! ## `LLMClient.generate_response` (`src/llm_client.py:18-62`)

The OpenAI chat-completion call is the oracle
`api : Nat → Except String (String × Nat)`: attempt index ↦ either a raised
exception (`Except.error` with `str(e)`) or the completion's
`(content, total_tokens)`.  The prompt text the call is built from is glue
(out of scope per the spec) and is fixed inside the oracle's closure. -/

/-- The dict `generate_response` returns: `content`, `tokens_used`,
`success`, and on the failure path also `error`. -/
structure LLMResponse where
  content : String
  tokens_used : Nat
  success : Bool
  error : Option String
deriving Repr, DecidableEq

/-- `LLMClient.max_retries` (`src/llm_client.py:15`). -/
def max_retries : Nat := 3

/-- The body of `for attempt in range(self.max_retries)` in
`generate_response` (`src/llm_client.py:30-62`): on a successful call,
return the success dict; on an exception with attempts remaining, back off
and loop; on an exception at the last attempt, return the failure dict.
Also counts the API invocations made.  `remaining` is the number of loop
iterations left (`max_retries - attempt`); a result of `none` is the loop
falling through, in which case Python returns `None`. -/
def generate_response_go (api : Nat → Except String (String × Nat)) :
    Nat → Nat → Option LLMResponse × Nat
  | _, 0 => (none, 0)
  | attempt, remaining + 1 =>
    match api attempt with
    | .ok (content, tokens) =>
        (some { content := content
                tokens_used := tokens
                success := true
                error := none }, 1)
    | .error e =>
        if attempt < max_retries - 1 then
          let r := generate_response_go api (attempt + 1) remaining
          (r.1, r.2 + 1)
        else
          (some { content := "LLM API failed after " ++ toString max_retries
                    ++ " attempts: " ++ e
                  tokens_used := 0
                  success := false
                  error := some e }, 1)

/-- `LLMClient.generate_response`: run the retry loop from attempt 0.
Returns the response (`none` would be Python's implicit `None`) and the
number of API invocations made. -/
def generate_response (api : Nat → Except String (String × Nat)) :
    Option LLMResponse × Nat :=
  generate_response_go api 0 max_retries

/-! ## `AgentManager` retry logic
(`src/agents/code_generators/complete_backend_generator.py:103-155`) -/

/-- The retryable error patterns of `_should_retry_agent`. -/
def retryable_errors : List String :=
  ["rate limit", "timeout", "connection", "temporary"]

/-- Python's `pattern in error_lower` substring test, on lower-cased
character data. -/
def containsPattern (error_message pattern : String) : Bool :=
  decide (pattern.data <:+: error_message.data.map Char.toLower)

/-- `AgentManager._should_retry_agent`
(`complete_backend_generator.py:146-155`): retry when any retryable pattern
occurs in the lower-cased error message. -/
def should_retry_agent (error_message : String) : Bool :=
  retryable_errors.any (containsPattern error_message)

/-- `AgentManager._process_with_agent`
(`complete_backend_generator.py:103-133`), with the agent's behaviour given
as the list of outcomes of its successive invocations (`agent.process`
either returns a value or raises).  Returns the overall outcome (a raised
exception is `Except.error`) together with the number of agent invocations
made; `none` means the supplied outcome list ran out while the code was
still retrying (the recursion `return await self._process_with_agent(...)`
has no attempt bound).  The `initialize_processing` / `finalize_processing`
bookkeeping calls around the invocation carry no state the claims touch. -/
def process_with_agent {α : Type} :
    List (Except String α) → Option (Except String α × Nat)
  | [] => none
  | outcome :: rest =>
    match outcome with
    | .ok v => some (.ok v, 1)
    | .error e =>
      if should_retry_agent e then
        match process_with_agent rest with
        | some (r, n) => some (r, n + 1)
        | none => none
      else some (.error e, 1)

/-! ## `AnalystAgent.process_message` (`src/agents.py:98-151`) -/

/-- The `message` dict handed to `process_message`: the fields the method
reads.  `content` is `message["content"]` (a parsed JSON value). -/
structure ProcMessage where
  message_type : String
  content : PyVal
  project_id : String

/-- The dict `AnalystAgent.process_message` returns on the
`start_analysis` path: `{"status": "complete", "analysis": ...,
"tokens_used": ...}` or `{"status": "error", "message": ...}`. -/
inductive AnalystResult where
  | complete (analysis : PyVal) (tokens_used : Nat)
  | error (message : String)
deriving Repr, DecidableEq

/-- `AnalystAgent.process_message` (`src/agents.py:98-151`).

* `api` — the OpenAI call oracle for `generate_response`;
* `parse` — the `json.loads` oracle: `none` is a raised
  `json.JSONDecodeError`;
* `dumps` — the `json.dumps` oracle used by `add_message` to serialize the
  payload;
* `new_message_id` / `now` — the uuid and `CURRENT_TIMESTAMP` that
  `add_message` would draw.

The result is `Except.error` when an exception escapes the method
(`.get` on a non-dict raises `AttributeError`, which the `try` — catching
only `json.JSONDecodeError` — does not handle), and otherwise the returned
value (`none` is Python's implicit `None` on the non-`start_analysis`
path) paired with the updated store. -/
def analyst_process_message (api : Nat → Except String (String × Nat))
    (parse : String → Option PyVal) (dumps : PyVal → String)
    (message : ProcMessage) (new_message_id : String) (now : Nat) (db : DB) :
    Except String (Option AnalystResult × DB) :=
  if message.message_type == "start_analysis" then
    match message.content.dictGet "requirements" (.pstr "") with
    | .error e => .error e
    | .ok _requirements =>
      match generate_response api with
      | (none, _) => .error "TypeError"
      | (some response, _) =>
        if response.success then
          match parse response.content with
          | none => .ok (some (.error "Invalid analysis format"), db)
          | some analysis =>
            match analysis.dictGet "confidence" (.pnum 80) with
            | .error e => .error e
            | .ok confidence =>
              let sent := add_message db new_message_id message.project_id
                "analyst" "architect" "handoff" (dumps analysis)
                (some confidence) now
              .ok (some (.complete analysis response.tokens_used), sent.2)
        else
          match response.error with
          | some e => .ok (some (.error e), db)
          | none => .error "KeyError"
  else
    .ok (none, db)

/-! ## The generated pipeline's stage error handling
(`src/agents/fixed_developer_agent.py:1154-1216`)

The pipeline template generated by the developer agent targets the
generated backend's own database (`update_project_status`,
`create_conflict` in `complete_backend_generator.py:1259-1434`); only the
project statuses and the conflict (intervention) records matter to the
claims. -/

/-- A row of the generated backend's `conflicts` table (schema at
`complete_backend_generator.py:1119-1133`; the columns the claims touch —
`resolution`, timestamps are glue). -/
structure ConflictRow where
  id : String
  project_id : String
  description : String
  agents_involved : String
  stage : Option String
  status : String
deriving Repr, DecidableEq

/-- The slice of the generated backend's store the pipeline error path
touches: per-project statuses and the conflict records. -/
structure GenDB where
  project_status : List (String × String)
  conflicts : List ConflictRow
deriving Repr, DecidableEq

/-- The generated `update_project_status`
(`complete_backend_generator.py:1259-1279`):
`UPDATE projects SET status = ? WHERE id = ?`. -/
def gen_update_project_status (db : GenDB) (project_id status : String) :
    GenDB :=
  { db with project_status := db.project_status.map fun p =>
      if p.1 == project_id then (p.1, status) else p }

/-- The generated `create_conflict`
(`complete_backend_generator.py:1408-1434`): INSERT a fresh conflict row;
the `status` column is not named in the INSERT and takes its schema
default `'pending'`.  No existing row is consulted. -/
def gen_create_conflict (db : GenDB) (conflict_id project_id description
    agents_involved : String) (stage : Option String) : String × GenDB :=
  (conflict_id,
   { db with conflicts := db.conflicts ++
      [{ id := conflict_id
         project_id := project_id
         description := description
         agents_involved := agents_involved
         stage := stage
         status := "pending" }] })

/-- `AgentManager._escalate_to_human`
(`complete_backend_generator.py:238-257`): unconditionally create a
conflict record via `create_conflict`, with description
`f"Agent {agent_type} error requiring human intervention: {error}"`,
`agents_involved = json.dumps([agent_type])` and `stage = agent_type`.
No check for an already-Pending record precedes the INSERT.  (The
in-memory `active_projects[...]["conflicts"]` append is glue.) -/
def agent_manager_escalate_to_human (db : GenDB)
    (conflict_id project_id agent_type error : String) : String × GenDB :=
  gen_create_conflict db conflict_id project_id
    ("Agent " ++ agent_type ++ " error requiring human intervention: "
      ++ error)
    ("[\"" ++ agent_type ++ "\"]") (some agent_type)

/-- The retry loop of `_handle_stage_error`
(`fixed_developer_agent.py:1193-1216`): `for attempt in range(3)`, each
iteration backs off and re-runs `agent.process(stage_input)` — `retry` is
the oracle giving each re-run's outcome; return `True` on the first
success, and `False` after the loop. -/
def handle_stage_error_go (retry : Nat → Except String Unit) :
    Nat → Nat → Bool
  | _, 0 => false
  | attempt, remaining + 1 =>
    match retry attempt with
    | .ok _ => true
    | .error _ => handle_stage_error_go retry (attempt + 1) remaining

/-- `_handle_stage_error` with its `max_retries = 3`. -/
def handle_stage_error (retry : Nat → Except String Unit) : Bool :=
  handle_stage_error_go retry 0 3

/-- What the stage error branch leaves behind: the accumulated
`pipeline_state["errors"]`, whether recovery succeeded, and the re-raised
exception message (`none` when recovered). -/
structure StageErrorOutcome where
  errors : List String
  recovered : Bool
  raised : Option String
deriving Repr, DecidableEq

/-- The `except` branch of the stage loop in `execute_pipeline`
(`fixed_developer_agent.py:1154-1166`): append the stage error to
`pipeline_state["errors"]`, run `_handle_stage_error`; if recovery fails,
set the project status to `"error"` and re-raise
`Exception(f"Pipeline failed at stage {agent_type}: {e}")` (caught by the
outer handler, which returns `{"success": False, ...}`). -/
def pipeline_stage_error_branch (retry : Nat → Except String Unit)
    (agent_type err project_id : String) (stage_index : Nat)
    (errors : List String) (db : GenDB) : StageErrorOutcome × GenDB :=
  let error_msg := "Stage " ++ toString (stage_index + 1) ++ " ("
    ++ agent_type ++ ") failed: " ++ err
  let errors' := errors ++ [error_msg]
  if handle_stage_error retry then
    ({ errors := errors', recovered := true, raised := none }, db)
  else
    ({ errors := errors'
       recovered := false
       raised := some ("Pipeline failed at stage " ++ agent_type ++ ": " ++ err) },
     gen_update_project_status db project_id "error")

/-! ## The repository's write operations on the store, as one step type

Every reachable statement in `src/database.py`, `src/agents.py` and
`src/main.py` that writes the `messages`, `projects` or `actions` tables
is one of the constructors below (the remaining handlers only SELECT).
Two INSERTs in the source are dead code and therefore write nothing: the
INSERT of `BaseAgent.escalate_to_human` (`agents.py:56`) sits behind an
unconditional `NameError` (see `escalate_to_human`), and the sample-task
INSERT in the lifespan handler (`main.py:40`) sits behind a call to
`db.create_project_with_id` (`main.py:34`), a method `DatabaseManager`
does not define, so that `try` block dies with `AttributeError` first.
This is the step relation for reachability invariants. -/

/-- One database write call performed somewhere in the repository. -/
inductive DBOp where
  | addMessage (message_id project_id from_agent to_agent message_type
      content : String) (confidence : Option PyVal) (now : Nat)
  | updateMessageStatus (message_id status : String)
  | createProject (project_id name requirements : String) (now : Nat)
  | respondToAction (action_id response : String) (now : Nat)
  | escalateToHuman (agent_id project_id issue options_json : String)
  | chatInsert (message_id project_id message_type target content_json : String)
      (now : Nat)

/-- Apply one write call to the store.  `escalateToHuman` leaves the store
unchanged: the method raises `NameError` before its INSERT (the exception
goes to the caller; no row is written). -/
def applyOp (db : DB) : DBOp → DB
  | .addMessage mid pid fa ta mt c conf now =>
      (add_message db mid pid fa ta mt c conf now).2
  | .updateMessageStatus mid status => update_message_status db mid status
  | .createProject pid name req now => (create_project db pid name req now).2
  | .respondToAction aid resp now => (respond_to_action db aid resp now).2
  | .escalateToHuman _ _ _ _ => db
  | .chatInsert mid pid mt tgt c now =>
      chat_message_insert db mid pid mt tgt c now

/-- Apply a sequence of writes in order. -/
def applyOps (db : DB) (ops : List DBOp) : DB := ops.foldl applyOp db

/-! ## Claim C10 — missing project lookup -/

/-- **C10** (confirmed).  For every project id that has no stored project
record, `DatabaseManager.get_project` returns `None` without raising, the
`GET /api/projects/{project_id}` endpoint responds with HTTP 404
"Project not found", and neither operation modifies the store. -/
theorem C10_get_project_missing (db : DB) (project_id : String)
    (h : ∀ p ∈ db.projects, p.id ≠ project_id) :
    get_project db project_id = (none, db) ∧
    get_project_endpoint db project_id =
      (.error ⟨404, "Project not found"⟩, db) := by
  have hfind : db.projects.find? (fun p => p.id == project_id) = none := by
    rw [List.find?_eq_none]
    intro p hp
    simpa using h p hp
  constructor
  · simp [get_project, hfind]
  · simp [get_project_endpoint, get_project, hfind]

/-- Witness for C10: a concrete store holding only project `"p1"`, looked
up at the absent id `"p2"`. -/
theorem C10_get_project_missing_witness :
    get_project ⟨[], [⟨"p1", "n", "r", none, "active", 1, 0, 0⟩], []⟩ "p2" =
      (none, ⟨[], [⟨"p1", "n", "r", none, "active", 1, 0, 0⟩], []⟩) ∧
    get_project_endpoint ⟨[], [⟨"p1", "n", "r", none, "active", 1, 0, 0⟩], []⟩ "p2" =
      (.error ⟨404, "Project not found"⟩,
       ⟨[], [⟨"p1", "n", "r", none, "active", 1, 0, 0⟩], []⟩) :=
  C10_get_project_missing _ _ (by decide)

/-! ## Claim C9 — messages are immutable except `status`/`attempt` -/

/-- **C9** (confirmed).  No write operation of the repository mutates any
field of a stored message other than its `status` (and `attempt`) fields:
for every message in the store before a write there is, after the write, a
message with the same id whose payload, agents, project id, confidence,
timestamp, thread and attempt counter are unchanged.  (The only UPDATE on
`messages` is `update_message_status`, which sets `status` alone; every
other write is an INSERT.) -/
theorem C9_message_fields_immutable (op : DBOp) (db : DB) (m : Message)
    (h : m ∈ db.messages) :
    ∃ m' ∈ (applyOp db op).messages,
      m'.id = m.id ∧ m'.project_id = m.project_id ∧
      m'.from_agent = m.from_agent ∧ m'.to_agent = m.to_agent ∧
      m'.message_type = m.message_type ∧ m'.content = m.content ∧
      m'.confidence = m.confidence ∧ m'.timestamp = m.timestamp ∧
      m'.thread_id = m.thread_id ∧
      m'.attempt_number = m.attempt_number := by
  cases op with
  | updateMessageStatus mid status =>
      refine ⟨if m.id == mid then { m with status := status } else m, ?_, ?_⟩
      · simp only [applyOp, update_message_status, List.mem_map]
        exact ⟨m, h, rfl⟩
      · by_cases hm : m.id == mid <;> simp [hm]
  | addMessage mid pid fa ta mt c conf now =>
      exact ⟨m, by simp [applyOp, add_message, List.mem_append, h], by simp⟩
  | createProject pid name req now =>
      exact ⟨m, by simpa [applyOp, create_project] using h, by simp⟩
  | respondToAction aid resp now =>
      exact ⟨m, by simpa [applyOp, respond_to_action] using h, by simp⟩
  | escalateToHuman ag pid issue opts =>
      exact ⟨m, by simpa [applyOp] using h, by simp⟩
  | chatInsert mid pid mt tgt c now =>
      exact ⟨m, by simp [applyOp, chat_message_insert, List.mem_append, h], by simp⟩

/-- Witness for C9: after resolving an action on a store holding one
message, that message is still present with all non-`status` fields
intact. -/
theorem C9_message_fields_immutable_witness :
    ∃ m' ∈ (applyOp ⟨[⟨"m1", "p1", "analyst", "architect", "handoff", "c",
        "pending", none, 3, none, 1⟩], [], []⟩
        (.respondToAction "a1" "approve" 9)).messages,
      m'.id = "m1" ∧ m'.project_id = "p1" ∧ m'.from_agent = "analyst" ∧
      m'.to_agent = "architect" ∧ m'.message_type = "handoff" ∧
      m'.content = "c" ∧ m'.confidence = none ∧ m'.timestamp = 3 ∧
      m'.thread_id = none ∧ m'.attempt_number = 1 :=
  C9_message_fields_immutable (.respondToAction "a1" "approve" 9) _
    ⟨"m1", "p1", "analyst", "architect", "handoff", "c", "pending", none, 3,
      none, 1⟩ (by decide)

/-! ## Claim C8 — the pending-messages query and its ordering -/

/-- Lexicographic order on character data, by character code (the standard
string order, written out so that it is kernel-computable). -/
def charsLe : List Char → List Char → Bool
  | [], _ => true
  | _ :: _, [] => false
  | c :: cs, d :: ds =>
    if c.toNat < d.toNat then true
    else if d.toNat < c.toNat then false
    else charsLe cs ds

/-- Modelled from the spec's words for comparison: `pendingFor` ordering
"by creation timestamp, ties broken by message id".  Same filter as the
source query, but sorted by `(timestamp, id)`. -/
def tsIdLe (a b : Message) : Prop :=
  a.timestamp < b.timestamp ∨
    (a.timestamp = b.timestamp ∧ charsLe a.id.data b.id.data = true)

instance : DecidableRel tsIdLe := fun a b =>
  decidable_of_iff (a.timestamp < b.timestamp ∨
    (a.timestamp = b.timestamp ∧ charsLe a.id.data b.id.data = true)) Iff.rfl

/-- Modelled from the spec: the pending-messages query as the spec
describes it, with the id tie-break. -/
def spec_pending_messages (db : DB) (agent_id : String) : List Message :=
  List.insertionSort tsIdLe
    (db.messages.filter fun m => m.to_agent == agent_id && m.status == "pending")

/-- **C8 counterexample.**  Two pending messages for `"architect"` with the
same timestamp, inserted in the order `"b"` then `"a"`: the source query
(`ORDER BY timestamp ASC`, no secondary key) returns them in insertion
order `[b, a]`, not in the id order `[a, b]` the claim states. -/
theorem C8_counterexample :
    get_pending_messages
        ⟨[⟨"b", "p", "analyst", "architect", "handoff", "c", "pending", none,
            5, none, 1⟩,
          ⟨"a", "p", "analyst", "architect", "handoff", "c", "pending", none,
            5, none, 1⟩], [], []⟩ "architect" ≠
      spec_pending_messages
        ⟨[⟨"b", "p", "analyst", "architect", "handoff", "c", "pending", none,
            5, none, 1⟩,
          ⟨"a", "p", "analyst", "architect", "handoff", "c", "pending", none,
            5, none, 1⟩], [], []⟩ "architect" := by decide

/-- **C8** (corrected).  The pending-messages query returns exactly the
messages addressed to the agent whose status is `'pending'`, sorted oldest
first by creation timestamp — but with no tie-break on message id: the SQL
has no secondary sort key, so equal-timestamp messages come back in table
(insertion) order. -/
theorem C8_pending_query (db : DB) (agent_id : String) :
    (∀ m : Message, m ∈ get_pending_messages db agent_id ↔
      (m ∈ db.messages ∧ m.to_agent = agent_id ∧ m.status = "pending")) ∧
    (get_pending_messages db agent_id).Sorted tsLe := by
  constructor
  · intro m
    rw [get_pending_messages, (List.perm_insertionSort tsLe _).mem_iff,
      List.mem_filter]
    simp [and_assoc]
  · exact List.sorted_insertionSort tsLe _

/-! ## Claim C4 — resolving an intervention is not idempotent -/

/-- **C4 counterexample.**  Resolving action `"a1"` with `"approve"` at
tick 1 and again with `"reject"` at tick 2: the second call overwrites both
the stored resolution value and the resolved timestamp, so it is neither a
no-op nor rejected. -/
theorem C4_counterexample :
    (respond_to_action
        ((respond_to_action
          ⟨[], [], [⟨"a1", "p1", "t", "d", "high", "pending", none, none, 0,
              none⟩]⟩ "a1" "approve" 1).2) "a1" "reject" 2).2.actions =
      [⟨"a1", "p1", "t", "d", "high", "resolved", none, some "reject", 0,
          some 2⟩] ∧
    (respond_to_action
        ⟨[], [], [⟨"a1", "p1", "t", "d", "high", "pending", none, none, 0,
            none⟩]⟩ "a1" "approve" 1).2.actions =
      [⟨"a1", "p1", "t", "d", "high", "resolved", none, some "approve", 0,
          some 1⟩] ∧
    some "reject" ≠ some "approve" := by decide

/-- **C4** (corrected).  `respond_to_action` marks the record resolved and
records the response on the first call, but it is not idempotent: it never
consults the current status, so a second call with the same request id
again runs the unconditional UPDATE and overwrites the stored resolution
value and resolved timestamp with the new ones.  Neither call triggers any
pipeline resume — the handler performs only this UPDATE (messages and
projects are untouched) and returns `"resolved"`. -/
theorem C4_resolve_overwrites (db : DB) (action_id r₁ r₂ : String)
    (t₁ t₂ : Nat) :
    (respond_to_action db action_id r₁ t₁).1 = "resolved" ∧
    (respond_to_action ((respond_to_action db action_id r₁ t₁).2) action_id
        r₂ t₂).1 = "resolved" ∧
    (respond_to_action ((respond_to_action db action_id r₁ t₁).2) action_id
        r₂ t₂).2.messages = db.messages ∧
    (respond_to_action ((respond_to_action db action_id r₁ t₁).2) action_id
        r₂ t₂).2.projects = db.projects ∧
    ∀ a ∈ (respond_to_action ((respond_to_action db action_id r₁ t₁).2)
        action_id r₂ t₂).2.actions,
      a.id = action_id →
        a.status = "resolved" ∧ a.response = some r₂ ∧
          a.resolved_at = some t₂ := by
  refine ⟨rfl, rfl, rfl, rfl, ?_⟩
  intro a ha hid
  simp only [respond_to_action, List.map_map, List.mem_map] at ha
  obtain ⟨b, _, hb⟩ := ha
  by_cases h₁ : b.id == action_id
  · simp [Function.comp, h₁] at hb
    simp [← hb]
  · simp [Function.comp, h₁] at hb
    rw [← hb] at hid
    exact absurd hid (by simpa using h₁)

/-- Witness for C4: the double resolution of the counterexample store,
checked through the general theorem. -/
theorem C4_resolve_overwrites_witness :
    (respond_to_action ⟨[], [], [⟨"a1", "p1", "t", "d", "high", "pending",
        none, none, 0, none⟩]⟩ "a1" "approve" 1).1 = "resolved" ∧
    (respond_to_action ((respond_to_action ⟨[], [], [⟨"a1", "p1", "t", "d",
        "high", "pending", none, none, 0, none⟩]⟩ "a1" "approve" 1).2) "a1"
        "reject" 2).1 = "resolved" ∧
    (respond_to_action ((respond_to_action ⟨[], [], [⟨"a1", "p1", "t", "d",
        "high", "pending", none, none, 0, none⟩]⟩ "a1" "approve" 1).2) "a1"
        "reject" 2).2.messages =
      (⟨[], [], [⟨"a1", "p1", "t", "d", "high", "pending", none, none, 0,
        none⟩]⟩ : DB).messages ∧
    (respond_to_action ((respond_to_action ⟨[], [], [⟨"a1", "p1", "t", "d",
        "high", "pending", none, none, 0, none⟩]⟩ "a1" "approve" 1).2) "a1"
        "reject" 2).2.projects =
      (⟨[], [], [⟨"a1", "p1", "t", "d", "high", "pending", none, none, 0,
        none⟩]⟩ : DB).projects ∧
    ∀ a ∈ (respond_to_action ((respond_to_action ⟨[], [], [⟨"a1", "p1", "t",
        "d", "high", "pending", none, none, 0, none⟩]⟩ "a1" "approve" 1).2)
        "a1" "reject" 2).2.actions,
      a.id = "a1" →
        a.status = "resolved" ∧ a.response = some "reject" ∧
          a.resolved_at = some 2 :=
  C4_resolve_overwrites _ "a1" "approve" "reject" 1 2

/-! ## Claim C5 — raising an intervention: never in `agents.py`,
unconditionally in the generated manager

The claim's two cited raise paths behave in opposite degenerate ways.
`BaseAgent.escalate_to_human` raises `NameError` before its INSERT on
every call (see `escalate_to_human`), so it never creates any record.
The generated `AgentManager._escalate_to_human` INSERTs a fresh conflict
row on every call with no check for an existing Pending one.  Neither
implements the claimed rejection of a second raise. -/

/-- The Pending conflict records of one project in the generated backend's
store (rows still carrying the schema-default status `'pending'`). -/
def pending_conflicts_for (db : GenDB) (project_id : String) :
    List ConflictRow :=
  db.conflicts.filter fun c =>
    c.project_id == project_id && c.status == "pending"

/-- **C5 counterexample.**  In `agents.py`, even a first raise creates no
record: `escalate_to_human` fails with `NameError` (no import of
`sqlite3`).  And in the generated manager — the path where a raise does
create records — two escalations for the same project and stage
(`"p1"`, `"architect"`), as racing stage retries would produce, both
INSERT: the second raise is not rejected, and the project is left with
two Pending intervention records, violating the claimed at-most-one
invariant. -/
theorem C5_counterexample :
    escalate_to_human DB.empty "analyst" "p1" "ambiguous requirement" "[]" =
      .error "NameError: name 'sqlite3' is not defined" ∧
    (pending_conflicts_for
      ((agent_manager_escalate_to_human
        ((agent_manager_escalate_to_human ⟨[("p1", "processing")], []⟩
          "c1" "p1" "architect" "ambiguous requirements").2)
        "c2" "p1" "architect" "ambiguous requirements").2) "p1").length = 2 ∧
    ¬((pending_conflicts_for
      ((agent_manager_escalate_to_human
        ((agent_manager_escalate_to_human ⟨[("p1", "processing")], []⟩
          "c1" "p1" "architect" "ambiguous requirements").2)
        "c2" "p1" "architect" "ambiguous requirements").2) "p1").length ≤ 1) := by
  decide

/-- **C5** (corrected).  Raising an intervention is not idempotent per
(projectId, stage), and no at-most-one-Pending invariant is enforced
anywhere: `BaseAgent.escalate_to_human` raises `NameError` on every call
(`sqlite3`/`uuid` are never imported) and so never creates any record,
while the generated `AgentManager._escalate_to_human` INSERTs a fresh
Pending conflict record unconditionally on every escalation, so a second
raise for the same project and stage always adds a second Pending
record. -/
theorem C5_no_idempotent_raise :
    (∀ (db : DB) (agent_id project_id issue options_json : String),
      escalate_to_human db agent_id project_id issue options_json =
        .error "NameError: name 'sqlite3' is not defined") ∧
    ∀ (db : GenDB) (cid₁ cid₂ pid ag₁ ag₂ err₁ err₂ : String),
      (pending_conflicts_for
        ((agent_manager_escalate_to_human
          ((agent_manager_escalate_to_human db cid₁ pid ag₁ err₁).2)
          cid₂ pid ag₂ err₂).2) pid).length =
        (pending_conflicts_for db pid).length + 2 := by
  refine ⟨fun _ _ _ _ _ => rfl, ?_⟩
  intro db cid₁ cid₂ pid ag₁ ag₂ err₁ err₂
  simp [pending_conflicts_for, agent_manager_escalate_to_human,
    gen_create_conflict, List.filter_append]

/-! ## Claim C2 — retry bounds -/

/-- The retry loop of `generate_response` makes at most `remaining` further
API invocations. -/
theorem generate_response_go_count (api : Nat → Except String (String × Nat)) :
    ∀ remaining attempt,
      (generate_response_go api attempt remaining).2 ≤ remaining
  | 0, _ => Nat.le_refl 0
  | remaining + 1, attempt => by
    simp only [generate_response_go]
    cases api attempt with
    | ok v =>
      obtain ⟨c, t⟩ := v
      simp
    | error e =>
      by_cases hlt : attempt < max_retries - 1
      · simpa [hlt] using
          Nat.succ_le_succ (generate_response_go_count api remaining (attempt + 1))
      · simp [hlt]

/-- The rate-limit error message is classified as retryable by
`_should_retry_agent`. -/
theorem should_retry_rate_limit :
    should_retry_agent "rate limit exceeded" = true := by decide

/-- `_process_with_agent` under `k` consecutive retryable failures followed
by a success invokes the agent `k + 1` times: the stage-level retry
recursion has no attempt counter and no bound. -/
theorem process_with_agent_replicate (k : Nat) :
    process_with_agent
        (List.replicate k (Except.error "rate limit exceeded")
          ++ [Except.ok ()]) =
      some (Except.ok (), k + 1) := by
  induction k with
  | zero => rfl
  | succ n ih =>
    simp [List.replicate_succ, process_with_agent, should_retry_rate_limit, ih]

/-- **C2 counterexample.**  A stage whose agent fails three times with a
Transient (rate-limit) error and then succeeds: `_process_with_agent`
invokes the agent 4 times, exceeding `maxAttempts = 3`, because its retry
recursion carries no attempt counter. -/
theorem C2_counterexample :
    should_retry_agent "Rate limit exceeded" = true ∧
    process_with_agent
        [Except.error "Rate limit exceeded", Except.error "Rate limit exceeded",
         Except.error "Rate limit exceeded", Except.ok ()] =
      some (Except.ok (), 4) ∧
    ¬((4 : Nat) ≤ 3) := by decide

/-- **C2** (corrected).  One `LLMClient.generate_response` call makes at
most `max_retries = 3` API invocations, but the stage-level retry in
`AgentManager._process_with_agent` is unbounded: a Transient-classified
failure always triggers another full invocation, so `k` consecutive
Transient failures yield `k + 1` agent invocations for the stage — the
per-stage invocation count is not bounded by `RetryPolicy.maxAttempts`. -/
theorem C2_retry_unbounded :
    (∀ api : Nat → Except String (String × Nat),
      (generate_response api).2 ≤ max_retries) ∧
    should_retry_agent "rate limit exceeded" = true ∧
    ∀ k : Nat,
      process_with_agent
          (List.replicate k (Except.error "rate limit exceeded")
            ++ [Except.ok ()]) =
        some (Except.ok (), k + 1) :=
  ⟨fun api => generate_response_go_count api max_retries 0,
   should_retry_rate_limit, process_with_agent_replicate⟩

/-! ## Claim C3 — what happens after retries are exhausted -/

/-- **C3 counterexample.**  The Architecting stage fails with a persistent
rate-limit error (every `_handle_stage_error` re-run fails too): the
pipeline sets the project status to `"error"` and re-raises — and the
conflict (intervention) table stays empty.  No intervention record
describing the persistent failure is created. -/
theorem C3_counterexample :
    pipeline_stage_error_branch (fun _ => .error "Rate limit exceeded")
        "architect" "Rate limit exceeded" "p1" 1 []
        ⟨[("p1", "processing")], []⟩ =
      (⟨["Stage 2 (architect) failed: Rate limit exceeded"], false,
          some "Pipeline failed at stage architect: Rate limit exceeded"⟩,
       ⟨[("p1", "error")], []⟩) ∧
    (⟨[("p1", "error")], []⟩ : GenDB).conflicts = [] := by decide

/-- **C3** (corrected).  When every recovery re-run fails (as with a
persistent Transient error), the pipeline's stage error branch records the
error, reports no recovery, sets the project's status to `"error"` and
re-raises — it creates no intervention/conflict record at all:
the conflicts table is left exactly as it was. -/
theorem C3_exhausted_retries_abort (retry : Nat → Except String Unit)
    (agent_type err project_id : String) (stage_index : Nat)
    (errors : List String) (db : GenDB)
    (hfail : ∀ i, i < 3 → ∃ e, retry i = .error e) :
    (pipeline_stage_error_branch retry agent_type err project_id stage_index
        errors db).2.conflicts = db.conflicts ∧
    (pipeline_stage_error_branch retry agent_type err project_id stage_index
        errors db).1.recovered = false ∧
    (pipeline_stage_error_branch retry agent_type err project_id stage_index
        errors db).1.raised =
      some ("Pipeline failed at stage " ++ agent_type ++ ": " ++ err) ∧
    (pipeline_stage_error_branch retry agent_type err project_id stage_index
        errors db).2.project_status =
      db.project_status.map
        (fun p => if p.1 == project_id then (p.1, "error") else p) := by
  obtain ⟨e₀, h₀⟩ := hfail 0 (by omega)
  obtain ⟨e₁, h₁⟩ := hfail 1 (by omega)
  obtain ⟨e₂, h₂⟩ := hfail 2 (by omega)
  have hrec : handle_stage_error retry = false := by
    simp [handle_stage_error, handle_stage_error_go, h₀, h₁, h₂]
  simp [pipeline_stage_error_branch, hrec, gen_update_project_status]

/-- Witness for C3: a persistent rate-limit failure at the Architecting
stage, run through the general theorem. -/
theorem C3_exhausted_retries_abort_witness :
    (pipeline_stage_error_branch (fun _ => .error "Rate limit exceeded")
        "architect" "Rate limit exceeded" "p1" 1 []
        ⟨[("p1", "processing")], []⟩).2.conflicts =
      (⟨[("p1", "processing")], []⟩ : GenDB).conflicts ∧
    (pipeline_stage_error_branch (fun _ => .error "Rate limit exceeded")
        "architect" "Rate limit exceeded" "p1" 1 []
        ⟨[("p1", "processing")], []⟩).1.recovered = false ∧
    (pipeline_stage_error_branch (fun _ => .error "Rate limit exceeded")
        "architect" "Rate limit exceeded" "p1" 1 []
        ⟨[("p1", "processing")], []⟩).1.raised =
      some ("Pipeline failed at stage " ++ "architect" ++ ": "
        ++ "Rate limit exceeded") ∧
    (pipeline_stage_error_branch (fun _ => .error "Rate limit exceeded")
        "architect" "Rate limit exceeded" "p1" 1 []
        ⟨[("p1", "processing")], []⟩).2.project_status =
      (⟨[("p1", "processing")], []⟩ : GenDB).project_status.map
        (fun p => if p.1 == "p1" then (p.1, "error") else p) :=
  C3_exhausted_retries_abort _ "architect" "Rate limit exceeded" "p1" 1 []
    ⟨[("p1", "processing")], []⟩
    (fun _ _ => ⟨"Rate limit exceeded", rfl⟩)

/-! ## Claim C6 — attempt counters are never persisted -/

/-- One write preserves the all-attempt-counters-are-1 invariant: every
INSERT sets `attempt_number` to its schema default 1, and the only UPDATE
(`update_message_status`) touches `status` alone.  No repository code ever
writes `attempt_number`. -/
theorem applyOp_attempt_number (db : DB) (op : DBOp)
    (h : ∀ m ∈ db.messages, m.attempt_number = 1) :
    ∀ m ∈ (applyOp db op).messages, m.attempt_number = 1 := by
  intro m hm
  cases op with
  | addMessage mid pid fa ta mt c conf now =>
    simp only [applyOp, add_message, List.mem_append, List.mem_singleton] at hm
    rcases hm with hm | hm
    · exact h m hm
    · rw [hm]
  | updateMessageStatus mid status =>
    simp only [applyOp, update_message_status, List.mem_map] at hm
    obtain ⟨b, hb, hbm⟩ := hm
    by_cases hid : b.id == mid
    · simp only [hid, if_true] at hbm
      rw [← hbm]
      exact h b hb
    · simp only [hid, Bool.false_eq_true, if_false] at hbm
      rw [← hbm]
      exact h b hb
  | createProject pid name req now =>
    simp only [applyOp, create_project] at hm
    exact h m hm
  | respondToAction aid resp now =>
    simp only [applyOp, respond_to_action] at hm
    exact h m hm
  | escalateToHuman ag pid issue opts =>
    simp only [applyOp] at hm
    exact h m hm
  | chatInsert mid pid mt tgt c now =>
    simp only [applyOp, chat_message_insert, List.mem_append,
      List.mem_singleton] at hm
    rcases hm with hm | hm
    · exact h m hm
    · rw [hm]

/-- **C6** (corrected).  No Agent Adapter attempt is ever recorded in the
store: the retry counter of `generate_response` lives only in the
in-memory loop (its embedding takes no store at all, mirroring the absence
of any database call in its body), and after any sequence of repository
writes every persisted message still carries `attempt_number = 1` — so a
crash mid-retry resumes with no recorded attempts, not with the count
already made. -/
theorem C6_attempts_not_persisted (ops : List DBOp) :
    ∀ m ∈ (applyOps DB.empty ops).messages, m.attempt_number = 1 := by
  suffices h : ∀ db : DB, (∀ m ∈ db.messages, m.attempt_number = 1) →
      ∀ m ∈ (applyOps db ops).messages, m.attempt_number = 1 by
    refine h DB.empty ?_
    intro m hm
    simp [DB.empty] at hm
  induction ops with
  | nil => exact fun db h => h
  | cons op rest ih =>
    intro db h
    exact ih (applyOp db op) (applyOp_attempt_number db op h)

/-- Witness for C6: a stage handoff written while the client retried;
the stored message's counter is 1, by the general theorem. -/
theorem C6_attempts_not_persisted_witness :
    (⟨"m1", "p1", "analyst", "architect", "handoff", "c", "pending", none, 0,
        none, 1⟩ : Message).attempt_number = 1 :=
  C6_attempts_not_persisted
    [DBOp.addMessage "m1" "p1" "analyst" "architect" "handoff" "c" none 0]
    ⟨"m1", "p1", "analyst", "architect", "handoff", "c", "pending", none, 0,
      none, 1⟩ (by decide)

/-- **C6 counterexample.**  With an API that fails twice and then succeeds,
`generate_response` makes 3 attempts, but the store after the stage's
handoff write holds only counters equal to 1 — the persisted attempt count
(1) does not equal the number of attempts already made (3): attempts are
never durably recorded before the next retry. -/
theorem C6_counterexample :
    (generate_response (fun n =>
      if n < 2 then .error "rate limit" else .ok ("content", 7))).2 = 3 ∧
    ((applyOps DB.empty
        [DBOp.addMessage "m1" "p1" "analyst" "architect" "handoff" "c" none 0]
      ).messages.all (fun m => m.attempt_number == 1)) = true ∧
    (3 : Nat) ≠ 1 := by decide

/-! ## Claim C7 — exception propagation out of the stage path -/

/-- The retry loop of `generate_response` always returns a classified
response dict — never `None`, never a propagated exception — as long as at
least one iteration remains and the remaining iterations reach the last
attempt (`attempt + remaining ≥ max_retries`), which holds at entry. -/
theorem generate_response_go_classified
    (api : Nat → Except String (String × Nat)) :
    ∀ remaining attempt, 1 ≤ remaining →
      max_retries ≤ attempt + remaining →
      ∃ r : LLMResponse, (generate_response_go api attempt remaining).1 = some r ∧
        ((r.success = true ∧ r.error = none) ∨
         (r.success = false ∧ r.error.isSome = true))
  | 0, _, h, _ => absurd h (by omega)
  | remaining + 1, attempt, _, hle => by
    simp only [generate_response_go]
    cases hapi : api attempt with
    | ok v =>
      obtain ⟨c, t⟩ := v
      exact ⟨_, rfl, Or.inl ⟨rfl, rfl⟩⟩
    | error e =>
      by_cases hlt : attempt < max_retries - 1
      · have h1 : 1 ≤ remaining := by
          simp only [max_retries] at hlt hle ⊢
          omega
        have h2 : max_retries ≤ (attempt + 1) + remaining := by
          simp only [max_retries] at hle ⊢
          omega
        obtain ⟨r, hr, hshape⟩ :=
          generate_response_go_classified api remaining (attempt + 1) h1 h2
        exact ⟨r, by simp [hlt, hr], hshape⟩
      · exact ⟨{ content := "LLM API failed after " ++ toString max_retries
                   ++ " attempts: " ++ e
                 tokens_used := 0
                 success := false
                 error := some e }, by simp [hlt], Or.inr ⟨rfl, rfl⟩⟩

/-- `generate_response` always returns a classified response: `success`
with no error, or failure with the classified error string — an API
exception never escapes and the loop never falls through to `None`. -/
theorem generate_response_classified
    (api : Nat → Except String (String × Nat)) :
    ∃ r : LLMResponse, (generate_response api).1 = some r ∧
      ((r.success = true ∧ r.error = none) ∨
       (r.success = false ∧ r.error.isSome = true)) :=
  generate_response_go_classified api max_retries 0 (by decide) (by decide)

/-- **C7 counterexample.**  The adapter behaves normally (no exception) but
returns the valid JSON text `"ambiguous"` — a string, not an object.
`json.loads` succeeds, and `analysis.get("confidence", 0.8)` then raises
`AttributeError`, which the stage path propagates raw to its caller (its
`try` catches only `json.JSONDecodeError`): no classified result is
returned. -/
theorem C7_counterexample :
    analyst_process_message (fun _ => .ok ("\x22ambiguous\x22", 5))
        (fun s => if s == "\x22ambiguous\x22" then some (.pstr "ambiguous")
                  else none)
        (fun _ => "") ⟨"start_analysis", .pdict .nil, "p1"⟩ "m1" 0 DB.empty =
      .error "AttributeError" := by decide

/-- **C7** (corrected).  The adapter's own exceptions never escape:
`generate_response` catches every API exception and always returns a
success-flagged, classified response dict.  And on a `start_analysis`
message whose content is a dict, whenever the LLM text parses to a JSON
object (or fails to parse, or the LLM call fails), `process_message`
returns a status-classified result.  The original claim fails only when
the LLM text parses to a non-object JSON value (see the counterexample),
or for other message types, where Python returns `None`. -/
theorem C7_no_adapter_exception_escapes :
    (∀ api : Nat → Except String (String × Nat),
      ∃ r : LLMResponse, (generate_response api).1 = some r ∧
        ((r.success = true ∧ r.error = none) ∨
         (r.success = false ∧ r.error.isSome = true))) ∧
    ∀ (api : Nat → Except String (String × Nat))
      (parse : String → Option PyVal) (dumps : PyVal → String)
      (msg : ProcMessage) (mid : String) (now : Nat) (db : DB),
      msg.message_type = "start_analysis" →
      msg.content.isDict = true →
      (∀ s v, parse s = some v → v.isDict = true) →
      ∃ res db',
        analyst_process_message api parse dumps msg mid now db =
          .ok (some res, db') := by
  refine ⟨generate_response_classified, ?_⟩
  intro api parse dumps msg mid now db htype hdict hparse
  obtain ⟨fields, hfields⟩ : ∃ f, msg.content = .pdict f := by
    cases hc : msg.content <;> simp_all [PyVal.isDict]
  obtain ⟨resp, hresp, hshape⟩ := generate_response_classified api
  cases hga : generate_response api with
  | mk o n =>
  rw [hga] at hresp
  have ho : o = some resp := hresp
  subst ho
  simp only [analyst_process_message, htype, beq_self_eq_true, if_true,
    hfields, PyVal.dictGet, hga]
  cases hget : fields.get? "requirements" with
  | some v =>
    cases hsucc : resp.success with
    | true =>
      cases hparsed : parse resp.content with
      | some analysis =>
        obtain ⟨af, haf⟩ : ∃ f, analysis = .pdict f := by
          have := hparse _ _ hparsed
          cases analysis <;> simp_all [PyVal.isDict]
        subst haf
        simp only [PyVal.dictGet]
        cases af.get? "confidence" <;> exact ⟨_, _, rfl⟩
      | none => exact ⟨_, _, rfl⟩
    | false =>
      rcases hshape with ⟨h1, _⟩ | ⟨_, h2⟩
      · rw [h1] at hsucc
        cases hsucc
      · obtain ⟨e, he⟩ := Option.isSome_iff_exists.mp h2
        simp only [he]
        exact ⟨_, _, rfl⟩
  | none =>
    cases hsucc : resp.success with
    | true =>
      cases hparsed : parse resp.content with
      | some analysis =>
        obtain ⟨af, haf⟩ : ∃ f, analysis = .pdict f := by
          have := hparse _ _ hparsed
          cases analysis <;> simp_all [PyVal.isDict]
        subst haf
        simp only [PyVal.dictGet]
        cases af.get? "confidence" <;> exact ⟨_, _, rfl⟩
      | none => exact ⟨_, _, rfl⟩
    | false =>
      rcases hshape with ⟨h1, _⟩ | ⟨_, h2⟩
      · rw [h1] at hsucc
        cases hsucc
      · obtain ⟨e, he⟩ := Option.isSome_iff_exists.mp h2
        simp only [he]
        exact ⟨_, _, rfl⟩

/-- Witness for C7: a concrete `start_analysis` run (dict content, a parse
oracle yielding only objects) returning a classified result, via the
general theorem. -/
theorem C7_no_adapter_exception_escapes_witness :
    ∃ res db',
      analyst_process_message (fun _ => .ok ("oops", 5)) (fun _ => none)
          (fun _ => "") ⟨"start_analysis", .pdict .nil, "p1"⟩ "m1" 0 DB.empty =
        .ok (some res, db') :=
  C7_no_adapter_exception_escapes.2 (fun _ => .ok ("oops", 5)) (fun _ => none)
    (fun _ => "") ⟨"start_analysis", .pdict .nil, "p1"⟩ "m1" 0 DB.empty
    rfl rfl (fun _ _ h => nomatch h)

/-! ## Claim C1 — no confidence gate before the handoff -/

/-- `dict.get` on an actual dict never raises: it returns some value. -/
theorem PyVal.dictGet_pdict (f : PyFields) (k : String) (d : PyVal) :
    ∃ v, (PyVal.pdict f).dictGet k d = .ok v := by
  simp only [PyVal.dictGet]
  cases f.get? k <;> exact ⟨_, rfl⟩

/-- **C1 counterexample.**  The analyst's LLM reports confidence 0.40,
well below the default threshold 0.70 (`BaseAgent.confidence_threshold`),
yet `process_message` hands the payload to the architect anyway — a
pending `handoff` message carrying confidence 0.40 is enqueued — and no
intervention record is created (`actions` stays empty): the pipeline does
not suspend. -/
theorem C1_counterexample :
    analyst_process_message (fun _ => .ok ("resp", 9))
        (fun s => if s == "resp" then
            some (.pdict (.cons "confidence" (.pnum 40) .nil)) else none)
        (fun _ => "dumped")
        ⟨"start_analysis",
          .pdict (.cons "requirements" (.pstr "Build a to-do app") .nil),
          "p1"⟩ "m1" 4 DB.empty =
      .ok (some (.complete (.pdict (.cons "confidence" (.pnum 40) .nil)) 9),
        ⟨[⟨"m1", "p1", "analyst", "architect", "handoff", "dumped", "pending",
            some (.pnum 40), 4, none, 1⟩], [], []⟩) ∧
    40 < 70 := by decide

/-- **C1** (corrected).  The analyst stage never compares the reported
confidence against `confidence_threshold` (the field is initialised to 0.7
and never read): for every successful LLM response whose content parses to
a JSON object, the payload is handed to the next stage — exactly one new
pending `handoff` message to the architect, carrying
`analysis.get("confidence", 0.8)` — and no intervention record is created,
regardless of whether the confidence is below 0.7.  Nothing suspends. -/
theorem C1_no_confidence_gate (api : Nat → Except String (String × Nat))
    (parse : String → Option PyVal) (dumps : PyVal → String)
    (msg : ProcMessage) (mid : String) (now : Nat) (db : DB)
    (resp : LLMResponse) (n : Nat) (analysis : PyFields) (confidence : PyVal)
    (h1 : msg.message_type = "start_analysis")
    (h2 : msg.content.isDict = true)
    (h3 : generate_response api = (some resp, n))
    (h4 : resp.success = true)
    (h5 : parse resp.content = some (.pdict analysis))
    (h6 : (PyVal.pdict analysis).dictGet "confidence" (.pnum 80) =
      .ok confidence) :
    analyst_process_message api parse dumps msg mid now db =
      .ok (some (.complete (.pdict analysis) resp.tokens_used),
        { db with messages := db.messages ++
            [{ id := mid
               project_id := msg.project_id
               from_agent := "analyst"
               to_agent := "architect"
               message_type := "handoff"
               content := dumps (.pdict analysis)
               status := "pending"
               confidence := some confidence
               timestamp := now
               thread_id := none
               attempt_number := 1 }] }) := by
  obtain ⟨f, hf⟩ : ∃ f, msg.content = .pdict f := by
    cases hc : msg.content <;> simp_all [PyVal.isDict]
  obtain ⟨rv, hrv⟩ := PyVal.dictGet_pdict f "requirements" (.pstr "")
  simp only [analyst_process_message, h1, beq_self_eq_true, if_true, hf, hrv,
    h3, h4, h5, h6, add_message]

/-- Witness for C1: the counterexample's run, reproduced through the
general theorem at confidence 0.40. -/
theorem C1_no_confidence_gate_witness :
    analyst_process_message (fun _ => .ok ("resp", 9))
        (fun s => if s == "resp" then
            some (.pdict (.cons "confidence" (.pnum 40) .nil)) else none)
        (fun _ => "dumped")
        ⟨"start_analysis",
          .pdict (.cons "requirements" (.pstr "Build a to-do app") .nil),
          "p1"⟩ "m1" 4 DB.empty =
      .ok (some (.complete (.pdict (.cons "confidence" (.pnum 40) .nil)) 9),
        { DB.empty with messages := DB.empty.messages ++
            [{ id := "m1"
               project_id := "p1"
               from_agent := "analyst"
               to_agent := "architect"
               message_type := "handoff"
               content := "dumped"
               status := "pending"
               confidence := some (.pnum 40)
               timestamp := 4
               thread_id := none
               attempt_number := 1 }] }) :=
  C1_no_confidence_gate (fun _ => .ok ("resp", 9))
    (fun s => if s == "resp" then
        some (.pdict (.cons "confidence" (.pnum 40) .nil)) else none)
    (fun _ => "dumped")
    ⟨"start_analysis",
      .pdict (.cons "requirements" (.pstr "Build a to-do app") .nil), "p1"⟩
    "m1" 4 DB.empty ⟨"resp", 9, true, none⟩ 1
    (.cons "confidence" (.pnum 40) .nil) (.pnum 40)
    rfl rfl (by decide) rfl (by decide) (by decide)

end BotArmy
